import Mathlib

/-!
Verification of the MCP-Server-Cdk repository.

The repository ships the CDK infrastructure definition
(`lib/mcp-server-stack.ts`), deployment scripts, and the React dashboard
client (`simple-frontend/src/App.jsx`).  The bridge server itself
(`mcp-server/main.py`, referenced by README.md and docker-compose.yml) is
not part of the shipped sources, so its data model and handlers are
modelled from the specification; the `MCPClient` class of `App.jsx` is
embedded directly from the source.
-/

/-- A JSON value, as produced by `JSON.parse` in the dashboard client and
exchanged on the wire.  Numbers are modelled as integers (the protocol only
uses integral values: ids, limits, timestamps). -/
inductive Json where
  | null : Json
  | bool (b : Bool) : Json
  | num (n : Int) : Json
  | str (s : String) : Json
  | arr (xs : List Json) : Json
  | obj (fields : List (String × Json)) : Json
deriving Repr

/-- Field access `j[k]` in the JavaScript sense: `none` stands for
`undefined` (absent field, or access on a non-object). -/
def Json.getField : Json → String → Option Json
  | .obj fields, k => (fields.find? (fun f => f.1 = k)).map (fun f => f.2)
  | _, _ => none

/-- JavaScript truthiness of a JSON value: `null`, `false`, `0` and the
empty string are falsy; every other value is truthy. -/
def Json.truthy : Json → Bool
  | .null => false
  | .bool b => b
  | .num n => n != 0
  | .str s => s != ""
  | .arr _ => true
  | .obj _ => true

/-- Truthiness of the field `k` of `j`, with `undefined` falsy — the test
performed by `if (result.error)` in the client. -/
def Json.truthyField (j : Json) (k : String) : Bool :=
  match j.getField k with
  | some v => v.truthy
  | none => false

/-- Whether the object carries the field `k` at all (present, whatever its
value — including `null`). -/
def Json.hasField (j : Json) (k : String) : Bool :=
  (j.getField k).isSome

/-- Field access expecting a string value. -/
def Json.getStr (j : Json) (k : String) : Option String :=
  match j.getField k with
  | some (.str s) => some s
  | _ => none

/-- Field access expecting a non-negative integral value. -/
def Json.getNat (j : Json) (k : String) : Option Nat :=
  match j.getField k with
  | some (.num n) => if 0 ≤ n then some n.toNat else none
  | _ => none

/-- Reads an object of string values as an association list (used for the
free-form `metadata` mapping of an Item). -/
def Json.strPairs : Json → Option (List (String × String))
  | .obj fields =>
      fields.mapM (fun f =>
        match f.2 with
        | .str s => some (f.1, s)
        | _ => none)
  | _ => none

/-- Modelled from the spec: the Item record of the persistence layer
(§3 DATA MODEL), held in the missing `mcp-server/main.py`.  Ids are
server-generated opaque identifiers, modelled as naturals; timestamps are
naturals on a logical clock; `metadata` is the free-form string mapping. -/
structure Item where
  id : Nat
  name : String
  description : String
  category : String
  metadata : List (String × String)
  created_at : Nat
  updated_at : Nat
deriving Repr, DecidableEq

/-- Modelled from the spec: the persistence store of the missing bridge
server.  `items` is the live table, `createdIds` the ghost history of every
id ever handed out, `nextId` the id generator (the spec's "server-generated
opaque unique identifier" is modelled as a monotone counter), `clock` the
creation-time clock. -/
structure Store where
  items : List Item
  createdIds : List Nat
  nextId : Nat
  clock : Nat
deriving Repr

/-- The empty store the server starts from. -/
def Store.empty : Store := ⟨[], [], 0, 0⟩

/-- Modelled from the spec: `create_item` of the missing bridge server —
inserts a new Item with a fresh server-generated id and returns it. -/
def create_item (s : Store) (name description category : String)
    (metadata : List (String × String)) : Store × Item :=
  let it : Item :=
    { id := s.nextId, name := name, description := description,
      category := category, metadata := metadata,
      created_at := s.clock, updated_at := s.clock }
  ({ items := it :: s.items, createdIds := s.nextId :: s.createdIds,
     nextId := s.nextId + 1, clock := s.clock + 1 }, it)

/-- Modelled from the spec: `get_item` of the missing bridge server —
returns one Item by id, or not-found (`none`). -/
def get_item (s : Store) (id : Nat) : Option Item :=
  s.items.find? (fun it => it.id = id)

/-- Modelled from the spec: `delete_item` of the missing bridge server —
removes the Item with the given key, idempotent-or-not-found. -/
def delete_item (s : Store) (id : Nat) : Store :=
  { s with items := s.items.filter (fun it => it.id ≠ id) }

/-- Insertion step of the most-recent-first ordering used by `list_items`
(the `timestamp-index` GSI queried in descending timestamp order). -/
def insertByTime (x : Item) : List Item → List Item
  | [] => [x]
  | y :: ys =>
      if y.created_at ≤ x.created_at then x :: y :: ys
      else y :: insertByTime x ys

/-- Sorts items most-recent-first by creation time. -/
def sortByTimeDesc : List Item → List Item
  | [] => []
  | x :: xs => insertByTime x (sortByTimeDesc xs)

/-- Modelled from the spec: `list_items` of the missing bridge server —
returns up to `limit` items, most-recent-first by creation time (the GSI
query with descending sort and a `Limit`). -/
def list_items (s : Store) (limit : Nat) : List Item :=
  (sortByTimeDesc s.items).take limit

/-- Store invariant: every id ever created is below the id generator, so
the next generated id is fresh. -/
def StoreInv (s : Store) : Prop :=
  ∀ i ∈ s.createdIds, i < s.nextId

instance (s : Store) : Decidable (StoreInv s) := by
  unfold StoreInv; infer_instance

/-- The fixed tool table of the bridge dispatcher (§4.1), closed at build
time. -/
def toolNames : List String :=
  ["create_item", "list_items", "get_item", "delete_item",
   "bedrock_chat", "bedrock_analyze_items"]

/-- The fixed resource table of the bridge dispatcher. -/
def resourceUris : List String :=
  ["items://all", "bedrock://models"]

/-- Modelled from the spec: one segment of a free-text inference reply —
either surrounding prose (including code fences and trailing commentary)
or a candidate structured block.  The missing chat-action extraction of
`mcp-server/main.py` scans the reply for such blocks. -/
inductive Segment where
  | prose (text : String) : Segment
  | block (j : Json) : Segment
deriving Repr

/-- An inference-service reply: free text possibly embedding structured
blocks. -/
def Reply := List Segment

/-- The plain text of a reply, prose and blocks rendered in order (blocks
render as their textual source; the exact rendering is irrelevant to the
claims, only that it is a pure function of the reply). -/
def Segment.text : Segment → String
  | .prose t => t
  | .block _ => "(structured block)"

/-- Concatenated plain text of the whole reply. -/
def replyText (r : Reply) : String :=
  String.join (r.map Segment.text)

/-- Modelled from the spec: a directive — "a structured action descriptor
embedded in a free-text inference reply, naming a tool and its arguments"
(GLOSSARY).  Field names follow the structured form the server instructs
the model to emit: `action` names the tool, `parameters` carries its
arguments. -/
structure Directive where
  tool : String
  args : Json
deriving Repr

/-- First structured block of a reply, skipping surrounding prose. -/
def firstBlock : Reply → Option Json
  | [] => none
  | .prose _ :: rest => firstBlock rest
  | .block j :: _ => some j

/-- Reads a structured block as a directive: an object with a string
`action` field; `parameters` defaults to the empty object when absent. -/
def readDirective (j : Json) : Option Directive :=
  match j.getStr "action" with
  | some tool => some ⟨tool, (j.getField "parameters").getD (Json.obj [])⟩
  | none => none

/-- Modelled from the spec: a validated, executable action.  Directives may
name only the CRUD tools of the table (the inference path cannot re-enter
itself). -/
inductive ChatAction where
  | create (name description category : String)
      (metadata : List (String × String)) : ChatAction
  | list (limit : Nat) : ChatAction
  | get (item_id : Nat) : ChatAction
  | delete (item_id : Nat) : ChatAction
deriving Repr, DecidableEq

/-- Validation step (b) of §4.2: the directive must name a known tool and
supply parameters matching that tool's schema; anything else is rejected. -/
def validateDirective (d : Directive) : Option ChatAction :=
  if d.tool = "create_item" then
    match d.args.getStr "name" with
    | some nm =>
        match (d.args.getField "metadata").getD (Json.obj []) |>.strPairs with
        | some md =>
            some (.create nm ((d.args.getStr "description").getD "")
              ((d.args.getStr "category").getD "") md)
        | none => none
    | none => none
  else if d.tool = "list_items" then
    some (.list ((d.args.getNat "limit").getD 10))
  else if d.tool = "get_item" then
    match d.args.getNat "item_id" with
    | some i => some (.get i)
    | none => none
  else if d.tool = "delete_item" then
    match d.args.getNat "item_id" with
    | some i => some (.delete i)
    | none => none
  else none

/-- Modelled from the spec: the full tolerant extraction of §4.2 — take the
first well-formed structured block, read it as a directive, validate tool
name and parameter schema; any failure yields `none` ("no action"). -/
def extractDirective (r : Reply) : Option ChatAction :=
  match firstBlock r with
  | none => none
  | some j =>
      match readDirective j with
      | none => none
      | some d => validateDirective d

/-- Executes a validated action against the store, returning the mutated
store and a human-readable confirmation. -/
def execAction (s : Store) : ChatAction → Store × String
  | .create nm ds ct md =>
      let r := create_item s nm ds ct md
      (r.1, "created item " ++ toString r.2.id)
  | .list n => (s, "listed " ++ toString (list_items s n).length ++ " items")
  | .get i =>
      match get_item s i with
      | some it => (s, "item " ++ toString i ++ ": " ++ it.name)
      | none => (s, "item " ++ toString i ++ " not found")
  | .delete i => (delete_item s i, "deleted item " ++ toString i)

/-- Modelled from the spec: the `bedrock_chat` handler body of the missing
bridge server, after the inference call returned `reply` (§4.1 table,
§4.2): extract a directive; if none, return the reply as plain text with
no side effect; if valid, execute it and append a confirmation. -/
def bedrock_chat (s : Store) (reply : Reply) : Store × String :=
  match extractDirective reply with
  | none => (s, replyText reply)
  | some a =>
      let r := execAction s a
      (r.1, replyText reply ++ "\n\n✅ Successfully executed! " ++ r.2)

/-- Plain-text rendering of a list of items for a content block. -/
def renderItems (l : List Item) : String :=
  String.intercalate ", " (l.map (fun it => it.name))

/-- Modelled from the spec: the `tools/call` dispatch of the missing bridge
server (§4.1).  `inf` is the outcome of the outbound inference call (used
only by the two bedrock tools).  Returns the new store and either a list
of textual content blocks or an error condition.  Malformed arguments fail
with a bad-parameters condition before any persistence call; an unknown
name fails with an unknown-operation condition; inference failures are
absorbed into a textual error content block. -/
def handleToolsCall (s : Store) (inf : Except String Reply)
    (name : String) (args : Json) : Store × Except String (List String) :=
  if name = "create_item" then
    match args.getStr "name" with
    | none => (s, .error "bad parameters: name is required")
    | some nm =>
        match ((args.getField "metadata").getD (Json.obj [])).strPairs with
        | none => (s, .error "bad parameters: metadata must map to strings")
        | some md =>
            let r := create_item s nm ((args.getStr "description").getD "")
              ((args.getStr "category").getD "") md
            (r.1, .ok ["Created item with id " ++ toString r.2.id])
  else if name = "list_items" then
    (s, .ok [renderItems (list_items s ((args.getNat "limit").getD 10))])
  else if name = "get_item" then
    match args.getNat "item_id" with
    | none => (s, .error "bad parameters: item_id is required")
    | some i =>
        match get_item s i with
        | some it => (s, .ok ["Item " ++ toString i ++ ": " ++ it.name])
        | none => (s, .ok ["Item not found: " ++ toString i])
  else if name = "delete_item" then
    match args.getNat "item_id" with
    | none => (s, .error "bad parameters: item_id is required")
    | some i => (delete_item s i, .ok ["Deleted item " ++ toString i])
  else if name = "bedrock_chat" then
    match args.getStr "message" with
    | none => (s, .error "bad parameters: message is required")
    | some _ =>
        match inf with
        | .error e => (s, .ok ["Error: " ++ e])
        | .ok reply =>
            let r := bedrock_chat s reply
            (r.1, .ok [r.2])
  else if name = "bedrock_analyze_items" then
    match inf with
    | .error e => (s, .ok ["Error: " ++ e])
    | .ok reply => (s, .ok ["Analysis: " ++ replyText reply])
  else
    (s, .error ("Unknown tool: " ++ name))

/-- The request envelope of the wire protocol (§3, §6):
`{jsonrpc, id, method, params}`. -/
structure Request where
  jsonrpc : String
  id : String
  method : String
  params : Json
deriving Repr

/-- The response envelope (§3): `id` correlates to the request, and the
payload is carried in `result` or `error`. -/
structure Response where
  id : String
  result : Option Json
  error : Option String
deriving Repr

/-- Wraps handler output as a list of content blocks, each `{type, text}`
(§4.1). -/
def contentJson (blocks : List String) : Json :=
  .obj [("content", .arr (blocks.map (fun t =>
    .obj [("type", .str "text"), ("text", .str t)])))]

/-- The static `tools/list` payload. -/
def toolsListJson : Json :=
  .obj [("tools", .arr (toolNames.map (fun n => .obj [("name", .str n)])))]

/-- The static `resources/list` payload. -/
def resourcesListJson : Json :=
  .obj [("resources", .arr (resourceUris.map (fun u =>
    .obj [("uri", .str u)])))]

/-- Modelled from the spec: the bridge dispatcher of the missing
`mcp-server/main.py` (§4.1, §6, §7) — maps the envelope's `method` to a
tool invocation or resource access and builds the response envelope, with
`error` carrying categories 1-4 of the failure taxonomy. -/
def handleRequest (s : Store) (inf : Except String Reply)
    (req : Request) : Store × Response :=
  if req.method = "tools/list" then
    (s, { id := req.id, result := some toolsListJson, error := none })
  else if req.method = "tools/call" then
    match req.params.getStr "name" with
    | none =>
        (s, { id := req.id, result := none,
              error := some "bad parameters: tool name is required" })
    | some name =>
        let args := (req.params.getField "arguments").getD (Json.obj [])
        let r := handleToolsCall s inf name args
        match r.2 with
        | .ok blocks =>
            (r.1, { id := req.id, result := some (contentJson blocks),
                    error := none })
        | .error e =>
            (r.1, { id := req.id, result := none, error := some e })
  else if req.method = "resources/list" then
    (s, { id := req.id, result := some resourcesListJson, error := none })
  else if req.method = "resources/read" then
    match req.params.getStr "uri" with
    | none =>
        (s, { id := req.id, result := none,
              error := some "bad parameters: uri is required" })
    | some uri =>
        if uri ∈ resourceUris then
          (s, { id := req.id,
                result := some (.obj [("contents",
                  .arr [.obj [("uri", .str uri),
                    ("text", .str (renderItems s.items))]])]),
                error := none })
        else
          (s, { id := req.id, result := none,
                error := some ("Unknown resource: " ++ uri) })
  else
    (s, { id := req.id, result := none,
          error := some ("Unknown method: " ++ req.method) })

/-- Little-endian decimal digits of a natural number (`[]` for `0`). -/
def decimalDigitsLE : Nat → List Nat
  | 0 => []
  | n + 1 => (n + 1) % 10 :: decimalDigitsLE ((n + 1) / 10)
decreasing_by exact Nat.div_lt_self (Nat.succ_pos n) (by norm_num)

/-- The character of a decimal digit. -/
def digitToChar (d : Nat) : Char := Char.ofNat (48 + d)

/-- Decimal rendering of a natural number, as JavaScript's
`Number.prototype.toString()` produces for the non-negative integers used
as request ids. -/
def natToDecimal (n : Nat) : String :=
  if n = 0 then "0"
  else String.mk (((decimalDigitsLE n).reverse).map digitToChar)

/-- Value of a little-endian digit list. -/
def ofDigitsLE : List Nat → Nat
  | [] => 0
  | d :: ds => d + 10 * ofDigitsLE ds

/-- Numeric value of a decimal digit character. -/
def charToDigit (c : Char) : Nat := c.toNat - 48

/-- Decodes a decimal string back to the natural number it renders. -/
def decodeDecimal (s : String) : Nat :=
  ofDigitsLE ((s.data.map charToDigit).reverse)

/-- The `MCPClient` of `simple-frontend/src/App.jsx`: the constructor sets
`this.requestId = 0`; `baseUrl` plays no role in the claims. -/
structure MCPClient where
  requestId : Nat
deriving Repr, DecidableEq

/-- A freshly constructed client (`new MCPClient()`). -/
def MCPClient.new : MCPClient := ⟨0⟩

/-- The JSON-RPC request object built by `sendRequest`. -/
structure JsonRpcRequest where
  jsonrpc : String
  id : String
  method : String
  params : Option Json
deriving Repr

/-- The request-building half of `MCPClient.sendRequest` (App.jsx lines
61-77): pre-increments `this.requestId` and sends
`{jsonrpc: "2.0", id: (++this.requestId).toString(), method, params}`.
Returns the updated client together with the request sent. -/
def MCPClient.sendRequest (c : MCPClient) (method : String)
    (params : Option Json) : MCPClient × JsonRpcRequest :=
  let c2 : MCPClient := ⟨c.requestId + 1⟩
  (c2, { jsonrpc := "2.0", id := natToDecimal c2.requestId,
         method := method, params := params })

/-- Runs a sequence of `sendRequest` calls on one client, collecting the
requests it sends in order. -/
def runCalls : MCPClient → List (String × Option Json) →
    MCPClient × List JsonRpcRequest
  | c, [] => (c, [])
  | c, (m, p) :: rest =>
      let r := c.sendRequest m p
      let t := runCalls r.1 rest
      (t.1, r.2 :: t.2)

/-- The ids of all requests issued by one client instance over a sequence
of calls, starting from a fresh client. -/
def requestIds (calls : List (String × Option Json)) : List String :=
  ((runCalls MCPClient.new calls).2).map (fun r => r.id)

/-- The error message taken from the parsed body's error value
(`result.error.message || 'MCP request failed'`); message values that are
not non-empty strings fall back to the default. -/
def errorMessageOf (e : Json) : String :=
  match e.getStr "message" with
  | some s => if s = "" then "MCP request failed" else s
  | none => "MCP request failed"

/-- The response-handling half of `MCPClient.sendRequest` (App.jsx lines
79-91): `if (!response.ok) throw`; then
`if (result.error) throw new Error(result.error.message || ...)`; else
`return result.result`.  `ok`/`status` come from the fetch response, `body`
is the parsed JSON; `Except.error` models the thrown exception, and the
returned value is `none` when the body has no `result` field
(JavaScript `undefined`). -/
def handleResponse (ok : Bool) (status : Nat) (body : Json) :
    Except String (Option Json) :=
  if !ok then .error ("HTTP error! status: " ++ natToDecimal status)
  else if body.truthyField "error" then
    .error (match body.getField "error" with
            | some e => errorMessageOf e
            | none => "MCP request failed")
  else .ok (body.getField "result")

/-! ### Supporting lemmas -/

theorem mem_insertByTime {a x : Item} {l : List Item} :
    a ∈ insertByTime x l ↔ a = x ∨ a ∈ l := by
  induction l with
  | nil => simp [insertByTime]
  | cons y ys ih =>
    rw [insertByTime]
    by_cases hc : y.created_at ≤ x.created_at
    · simp [hc]
    · simp [hc, ih]
      tauto

theorem pairwise_insertByTime (x : Item) (l : List Item)
    (h : l.Pairwise (fun a b => b.created_at ≤ a.created_at)) :
    (insertByTime x l).Pairwise (fun a b => b.created_at ≤ a.created_at) := by
  induction l with
  | nil => simp [insertByTime]
  | cons y ys ih =>
    rw [insertByTime]
    rcases List.pairwise_cons.mp h with ⟨hy, hys⟩
    by_cases hc : y.created_at ≤ x.created_at
    · simp only [hc, if_true]
      refine List.pairwise_cons.mpr ⟨?_, h⟩
      intro b hb
      rcases List.mem_cons.mp hb with hb | hb
      · exact hb ▸ hc
      · exact le_trans (hy b hb) hc
    · simp only [hc, if_false]
      refine List.pairwise_cons.mpr ⟨?_, ih hys⟩
      intro b hb
      rcases mem_insertByTime.mp hb with hb | hb
      · exact hb ▸ le_of_lt (lt_of_not_le hc)
      · exact hy b hb

theorem pairwise_sortByTimeDesc (l : List Item) :
    (sortByTimeDesc l).Pairwise (fun a b => b.created_at ≤ a.created_at) := by
  induction l with
  | nil => simp [sortByTimeDesc]
  | cons x xs ih => exact pairwise_insertByTime x _ ih

theorem ofDigitsLE_decimalDigitsLE (n : Nat) :
    ofDigitsLE (decimalDigitsLE n) = n := by
  induction n using Nat.strong_induction_on with
  | _ n ih =>
    match n with
    | 0 => simp [decimalDigitsLE, ofDigitsLE]
    | m + 1 =>
      rw [decimalDigitsLE, ofDigitsLE,
        ih ((m + 1) / 10) (Nat.div_lt_self (Nat.succ_pos m) (by norm_num))]
      omega

theorem decimalDigitsLE_lt_ten (n : Nat) :
    ∀ d ∈ decimalDigitsLE n, d < 10 := by
  induction n using Nat.strong_induction_on with
  | _ n ih =>
    match n with
    | 0 => simp [decimalDigitsLE]
    | m + 1 =>
      rw [decimalDigitsLE]
      intro d hd
      rcases List.mem_cons.mp hd with h | h
      · omega
      · exact ih ((m + 1) / 10)
          (Nat.div_lt_self (Nat.succ_pos m) (by norm_num)) d h

theorem charToDigit_digitToChar {d : Nat} (h : d < 10) :
    charToDigit (digitToChar d) = d := by
  interval_cases d <;> decide

theorem decodeDecimal_natToDecimal (n : Nat) :
    decodeDecimal (natToDecimal n) = n := by
  by_cases h : n = 0
  · subst h; decide
  · unfold natToDecimal decodeDecimal
    rw [if_neg h]
    show ofDigitsLE (((((decimalDigitsLE n).reverse).map digitToChar).map
      charToDigit).reverse) = n
    rw [List.map_map]
    have hmap : ((decimalDigitsLE n).reverse).map (charToDigit ∘ digitToChar) =
        ((decimalDigitsLE n).reverse).map id := by
      apply List.map_congr_left
      intro d hd
      exact charToDigit_digitToChar
        (decimalDigitsLE_lt_ten n d (List.mem_reverse.mp hd))
    rw [hmap, List.map_id, List.reverse_reverse, ofDigitsLE_decimalDigitsLE]

theorem natToDecimal_injective : Function.Injective natToDecimal := by
  intro m n h
  have h2 := congrArg decodeDecimal h
  rwa [decodeDecimal_natToDecimal, decodeDecimal_natToDecimal] at h2

theorem runCalls_ids (c : MCPClient) (calls : List (String × Option Json)) :
    ((runCalls c calls).2).map (fun r => r.id) =
      (List.range calls.length).map
        (fun i => natToDecimal (c.requestId + i + 1)) := by
  induction calls generalizing c with
  | nil => rfl
  | cons hd tl ih =>
    obtain ⟨m, p⟩ := hd
    show natToDecimal (c.requestId + 1) ::
        ((runCalls ⟨c.requestId + 1⟩ tl).2).map (fun r => r.id) = _
    rw [ih ⟨c.requestId + 1⟩, List.length_cons, List.range_succ_eq_map,
      List.map_cons, List.map_map]
    refine congrArg₂ _ (by simp) ?_
    apply List.map_congr_left
    intro i _
    show natToDecimal (c.requestId + 1 + i + 1) =
      natToDecimal (c.requestId + (i + 1) + 1)
    apply congrArg
    omega

/-- The invariant holds of the empty store. -/
theorem storeInv_empty : StoreInv Store.empty := by decide

/-- `create_item` preserves the freshness invariant. -/
theorem storeInv_create (s : Store) (h : StoreInv s)
    (nm ds ct : String) (md : List (String × String)) :
    StoreInv (create_item s nm ds ct md).1 := by
  intro i hi
  have hmem : i ∈ s.nextId :: s.createdIds := hi
  have hlt : i < s.nextId + 1 := by
    rcases List.mem_cons.mp hmem with h1 | h1
    · omega
    · exact Nat.lt_succ_of_lt (h i h1)
  exact hlt

/-- `delete_item` preserves the freshness invariant. -/
theorem storeInv_delete (s : Store) (h : StoreInv s) (id : Nat) :
    StoreInv (delete_item s id) := h

/-! ### Claim theorems -/

/-- C1: on any store satisfying the freshness invariant, a valid
`create_item` call returns an id distinct from the id of every item ever
created in the store, and `get_item` with that id issued immediately
afterwards returns an Item whose name, description, category and metadata
equal those supplied. -/
theorem create_item_unique_id_and_get (s : Store) (hInv : StoreInv s)
    (nm ds ct : String) (md : List (String × String)) :
    (create_item s nm ds ct md).2.id ∉ s.createdIds ∧
    get_item (create_item s nm ds ct md).1 (create_item s nm ds ct md).2.id =
      some (create_item s nm ds ct md).2 ∧
    (create_item s nm ds ct md).2.name = nm ∧
    (create_item s nm ds ct md).2.description = ds ∧
    (create_item s nm ds ct md).2.category = ct ∧
    (create_item s nm ds ct md).2.metadata = md := by
  refine ⟨?_, ?_, rfl, rfl, rfl, rfl⟩
  · intro hmem
    have hmem2 : s.nextId ∈ s.createdIds := hmem
    exact absurd (hInv s.nextId hmem2) (lt_irrefl s.nextId)
  · exact List.find?_cons_of_pos _ (decide_eq_true rfl)

theorem create_item_unique_id_and_get_witness :
    StoreInv (create_item Store.empty "a" "b" "c" []).1 ∧
    ((create_item (create_item Store.empty "a" "b" "c" []).1
        "laptop" "work computer" "test" [("k", "v")]).2.id ∉
      (create_item Store.empty "a" "b" "c" []).1.createdIds ∧
    get_item (create_item (create_item Store.empty "a" "b" "c" []).1
        "laptop" "work computer" "test" [("k", "v")]).1
      (create_item (create_item Store.empty "a" "b" "c" []).1
        "laptop" "work computer" "test" [("k", "v")]).2.id =
      some (create_item (create_item Store.empty "a" "b" "c" []).1
        "laptop" "work computer" "test" [("k", "v")]).2 ∧
    (create_item (create_item Store.empty "a" "b" "c" []).1
        "laptop" "work computer" "test" [("k", "v")]).2.name = "laptop" ∧
    (create_item (create_item Store.empty "a" "b" "c" []).1
        "laptop" "work computer" "test" [("k", "v")]).2.description =
      "work computer" ∧
    (create_item (create_item Store.empty "a" "b" "c" []).1
        "laptop" "work computer" "test" [("k", "v")]).2.category = "test" ∧
    (create_item (create_item Store.empty "a" "b" "c" []).1
        "laptop" "work computer" "test" [("k", "v")]).2.metadata =
      [("k", "v")]) :=
  ⟨by decide,
   create_item_unique_id_and_get (create_item Store.empty "a" "b" "c" []).1
     (by decide) "laptop" "work computer" "test" [("k", "v")]⟩

/-- C2: `delete_item` followed by `get_item` on the same id always yields
not-found, whether or not the item existed before the delete. -/
theorem delete_then_get_none (s : Store) (id : Nat) :
    get_item (delete_item s id) id = none := by
  apply List.find?_eq_none.mpr
  intro it hit
  have hmem : it ∈ s.items.filter (fun it => it.id ≠ id) := hit
  have := (List.mem_filter.mp hmem).2
  simp at this ⊢
  exact this

/-- C3: `list_items` with `limit = N` returns at most `N` items, ordered
most-recent-first by creation time. -/
theorem list_items_at_most_and_ordered (s : Store) (N : Nat) :
    (list_items s N).length ≤ N ∧
    (list_items s N).Pairwise (fun a b => b.created_at ≤ a.created_at) := by
  constructor
  · exact List.length_take_le N _
  · exact (pairwise_sortByTimeDesc s.items).sublist
      (List.take_sublist N (sortByTimeDesc s.items))

/-- C5: when the inference reply contains no well-formed directive naming a
known tool with schema-conforming parameters (no structured block, an
unreadable block, an unknown tool, or a schema violation all make
`extractDirective` return `none`), `bedrock_chat` leaves the store
unchanged and returns the reply as plain text. -/
theorem bedrock_chat_no_directive (s : Store) (r : Reply)
    (h : extractDirective r = none) :
    bedrock_chat s r = (s, replyText r) := by
  unfold bedrock_chat
  rw [h]

theorem bedrock_chat_no_directive_witness :
    extractDirective
      [Segment.prose "Sure, doing it: ",
       Segment.block (Json.obj [("action", Json.str "fly_to_moon"),
         ("parameters", Json.obj [])]),
       Segment.prose " ...done"] = none ∧
    bedrock_chat Store.empty
      [Segment.prose "Sure, doing it: ",
       Segment.block (Json.obj [("action", Json.str "fly_to_moon"),
         ("parameters", Json.obj [])]),
       Segment.prose " ...done"] =
      (Store.empty, replyText
        [Segment.prose "Sure, doing it: ",
         Segment.block (Json.obj [("action", Json.str "fly_to_moon"),
           ("parameters", Json.obj [])]),
         Segment.prose " ...done"]) :=
  ⟨by decide, bedrock_chat_no_directive Store.empty _ (by decide)⟩

/-- C6: when the inference reply contains a well-formed `create_item`
directive (however wrapped in prose), `bedrock_chat` creates exactly one
new Item whose fields match the directive's parameters. -/
theorem bedrock_chat_create_directive (s : Store) (r : Reply)
    (nm ds ct : String) (md : List (String × String))
    (h : extractDirective r = some (.create nm ds ct md)) :
    ∃ it : Item,
      (bedrock_chat s r).1.items = it :: s.items ∧
      (bedrock_chat s r).1.items.length = s.items.length + 1 ∧
      it.name = nm ∧ it.description = ds ∧ it.category = ct ∧
      it.metadata = md := by
  unfold bedrock_chat
  rw [h]
  exact ⟨_, rfl, rfl, rfl, rfl, rfl, rfl⟩

theorem bedrock_chat_create_directive_witness :
    extractDirective
      [Segment.prose "Sure! ```json ",
       Segment.block (Json.obj [("action", Json.str "create_item"),
         ("parameters", Json.obj [("name", Json.str "laptop"),
           ("description", Json.str "work computer"),
           ("category", Json.str "test"),
           ("metadata", Json.obj [("source", Json.str "chat")])])]),
       Segment.prose " ``` done!"] =
      some (.create "laptop" "work computer" "test" [("source", "chat")]) ∧
    ∃ it : Item,
      (bedrock_chat Store.empty
        [Segment.prose "Sure! ```json ",
         Segment.block (Json.obj [("action", Json.str "create_item"),
           ("parameters", Json.obj [("name", Json.str "laptop"),
             ("description", Json.str "work computer"),
             ("category", Json.str "test"),
             ("metadata", Json.obj [("source", Json.str "chat")])])]),
         Segment.prose " ``` done!"]).1.items = it :: Store.empty.items ∧
      (bedrock_chat Store.empty
        [Segment.prose "Sure! ```json ",
         Segment.block (Json.obj [("action", Json.str "create_item"),
           ("parameters", Json.obj [("name", Json.str "laptop"),
             ("description", Json.str "work computer"),
             ("category", Json.str "test"),
             ("metadata", Json.obj [("source", Json.str "chat")])])]),
         Segment.prose " ``` done!"]).1.items.length =
        Store.empty.items.length + 1 ∧
      it.name = "laptop" ∧ it.description = "work computer" ∧
      it.category = "test" ∧ it.metadata = [("source", "chat")] :=
  ⟨by decide,
   bedrock_chat_create_directive Store.empty _
     "laptop" "work computer" "test" [("source", "chat")] (by decide)⟩

/-- C4: a `tools/call` request whose tool name is not in the fixed tool
table yields an error envelope with an unknown-operation message and
leaves the store unchanged; no handler runs and no partial result is
returned. -/
theorem toolsCall_unknown_tool (s : Store) (inf : Except String Reply)
    (req : Request) (name : String)
    (hm : req.method = "tools/call")
    (hn : req.params.getStr "name" = some name)
    (h : name ∉ toolNames) :
    handleRequest s inf req =
      (s, { id := req.id, result := none,
            error := some ("Unknown tool: " ++ name) }) := by
  have h0 := h
  simp only [toolNames, List.mem_cons, List.not_mem_nil, or_false,
    not_or] at h0
  obtain ⟨h1, h2, h3, h4, h5, h6⟩ := h0
  unfold handleRequest
  rw [hm]
  simp [hn, handleToolsCall, h1, h2, h3, h4, h5, h6]

theorem toolsCall_unknown_tool_witness :
    ("frobnicate" ∉ toolNames) ∧
    handleRequest Store.empty (Except.error "down")
      ⟨"2.0", "7", "tools/call",
        Json.obj [("name", Json.str "frobnicate")]⟩ =
      (Store.empty, { id := "7", result := none,
                      error := some ("Unknown tool: " ++ "frobnicate") }) :=
  ⟨by decide,
   toolsCall_unknown_tool Store.empty (Except.error "down")
     ⟨"2.0", "7", "tools/call", Json.obj [("name", Json.str "frobnicate")]⟩
     "frobnicate" rfl (by decide) (by decide)⟩

/-- C7: for every request envelope, the response envelope carries the
request's `id`, and exactly one of `result` and `error` is present. -/
theorem response_id_matches_and_exclusive (s : Store)
    (inf : Except String Reply) (req : Request) :
    (handleRequest s inf req).2.id = req.id ∧
    (((handleRequest s inf req).2.result.isSome ∧
        (handleRequest s inf req).2.error = none) ∨
      ((handleRequest s inf req).2.result = none ∧
        (handleRequest s inf req).2.error.isSome)) := by
  unfold handleRequest
  by_cases h1 : req.method = "tools/list"
  · simp [h1]
  by_cases h2 : req.method = "tools/call"
  · rw [if_neg h1, if_pos h2]
    rcases hname : req.params.getStr "name" with _ | name
    · simp [hname]
    · rcases hout : (handleToolsCall s inf name
          ((req.params.getField "arguments").getD (Json.obj []))).2 with
        e | blocks
      · simp [hname, hout]
      · simp [hname, hout]
  by_cases h3 : req.method = "resources/list"
  · simp [h1, h2, h3]
  by_cases h4 : req.method = "resources/read"
  · rw [if_neg h1, if_neg h2, if_neg h3, if_pos h4]
    rcases huri : req.params.getStr "uri" with _ | uri
    · simp [huri]
    · by_cases h5 : uri ∈ resourceUris
      · simp [huri, h5]
      · simp [huri, h5]
  · rw [if_neg h1, if_neg h2, if_neg h3, if_neg h4]
    simp

/-- C8: when the inference call fails, `bedrock_chat` (given a `message`
argument, so that the call is reached) and `bedrock_analyze_items` return
a successful response envelope whose content is a textual error block; the
failure never becomes the `error` field of the envelope. -/
theorem bedrock_failure_absorbed (s : Store) (e msg id1 id2 : String)
    (args : Json) (hmsg : args.getStr "message" = some msg) :
    handleRequest s (.error e)
      ⟨"2.0", id1, "tools/call",
        Json.obj [("name", .str "bedrock_chat"), ("arguments", args)]⟩ =
      (s, { id := id1, result := some (contentJson ["Error: " ++ e]),
            error := none }) ∧
    handleRequest s (.error e)
      ⟨"2.0", id2, "tools/call",
        Json.obj [("name", .str "bedrock_analyze_items"),
          ("arguments", args)]⟩ =
      (s, { id := id2, result := some (contentJson ["Error: " ++ e]),
            error := none }) := by
  have hname1 : (Json.obj [("name", Json.str "bedrock_chat"),
      ("arguments", args)]).getStr "name" = some "bedrock_chat" := rfl
  have hname2 : (Json.obj [("name", Json.str "bedrock_analyze_items"),
      ("arguments", args)]).getStr "name" = some "bedrock_analyze_items" :=
    rfl
  have hargs1 : (Json.obj [("name", Json.str "bedrock_chat"),
      ("arguments", args)]).getField "arguments" = some args := rfl
  have hargs2 : (Json.obj [("name", Json.str "bedrock_analyze_items"),
      ("arguments", args)]).getField "arguments" = some args := rfl
  constructor
  · unfold handleRequest
    simp [hname1, hargs1, handleToolsCall, hmsg]
  · unfold handleRequest
    simp [hname2, hargs2, handleToolsCall]

theorem bedrock_failure_absorbed_witness :
    (Json.obj [("message", Json.str "hi")]).getStr "message" = some "hi" ∧
    (handleRequest Store.empty (.error "model unavailable")
      ⟨"2.0", "3", "tools/call",
        Json.obj [("name", .str "bedrock_chat"),
          ("arguments", Json.obj [("message", Json.str "hi")])]⟩ =
      (Store.empty, { id := "3",
                      result := some
                        (contentJson ["Error: " ++ "model unavailable"]),
                      error := none }) ∧
    handleRequest Store.empty (.error "model unavailable")
      ⟨"2.0", "4", "tools/call",
        Json.obj [("name", .str "bedrock_analyze_items"),
          ("arguments", Json.obj [("message", Json.str "hi")])]⟩ =
      (Store.empty, { id := "4",
                      result := some
                        (contentJson ["Error: " ++ "model unavailable"]),
                      error := none })) :=
  ⟨rfl,
   bedrock_failure_absorbed Store.empty "model unavailable" "hi" "3" "4"
     (Json.obj [("message", Json.str "hi")]) rfl⟩

/-- C9: one client instance issues requests whose ids are the decimal
strings "1", "2", ... in call order, hence pairwise distinct and strictly
increasing in their decoded numeric value. -/
theorem sendRequest_ids_decimal (calls : List (String × Option Json)) :
    requestIds calls =
      (List.range calls.length).map (fun i => natToDecimal (i + 1)) ∧
    (requestIds calls).Nodup ∧
    (requestIds calls).Pairwise
      (fun a b => decodeDecimal a < decodeDecimal b) := by
  have hids : requestIds calls =
      (List.range calls.length).map (fun i => natToDecimal (i + 1)) := by
    unfold requestIds
    rw [runCalls_ids]
    apply List.map_congr_left
    intro i _
    show natToDecimal (MCPClient.new.requestId + i + 1) = natToDecimal (i + 1)
    apply congrArg
    show 0 + i + 1 = i + 1
    omega
  refine ⟨hids, ?_, ?_⟩
  · rw [hids]
    refine (List.nodup_range _).map ?_
    intro a b hab
    have h2 := congrArg decodeDecimal hab
    rwa [decodeDecimal_natToDecimal, decodeDecimal_natToDecimal,
      Nat.add_right_cancel_iff] at h2
  · rw [hids]
    refine List.Pairwise.map _ ?_ (List.pairwise_lt_range _)
    intro a b hab
    rw [decodeDecimal_natToDecimal, decodeDecimal_natToDecimal]
    omega

/-- C10 counterexample: a parsed body that contains an `error` field whose
value is `null` together with an ok HTTP status does not make `sendRequest`
throw — it returns the `result` field — so "contains an error field" is
not the code's throw condition. -/
theorem sendRequest_error_field_counterexample :
    Json.hasField
      (Json.obj [("error", Json.null), ("result", Json.str "v")])
      "error" = true ∧
    handleResponse true 200
      (Json.obj [("error", Json.null), ("result", Json.str "v")]) =
      .ok (some (Json.str "v")) := by
  constructor <;> rfl

/-- C10 (amended): `sendRequest` throws iff the HTTP response status is
not ok or the parsed body's `error` field is present and truthy in the
JavaScript sense (not `null`, `false`, `0` or the empty string); otherwise
it returns the body's `result` field. -/
theorem sendRequest_throws_iff_truthy_error (ok : Bool) (status : Nat)
    (body : Json) :
    ((handleResponse ok status body).isOk =
      (ok && !body.truthyField "error")) ∧
    (ok = true → body.truthyField "error" = false →
      handleResponse ok status body = .ok (body.getField "result")) := by
  constructor
  · unfold handleResponse
    cases ok
    · simp [Except.isOk, Except.toBool]
    · cases h : body.truthyField "error" <;>
        simp [h, Except.isOk, Except.toBool]
  · intro h1 h2
    unfold handleResponse
    simp [h1, h2]

theorem sendRequest_throws_iff_truthy_error_witness :
    handleResponse true 200 (Json.obj [("result", Json.str "v")]) =
      .ok ((Json.obj [("result", Json.str "v")]).getField "result") :=
  (sendRequest_throws_iff_truthy_error true 200
    (Json.obj [("result", Json.str "v")])).2 rfl rfl
